import Mathlib

/-! Verification development for the 6502 CPU core in src/cpu.ts (class CPU)
of the tsnesemu repository.

The TypeScript source is embedded shallowly: the class fields become a
record, each method becomes a pure function on that record, and JavaScript
numeric semantics are modelled explicitly.  Bitwise operators coerce their
operands to 32-bit two-complement integers, shift counts are taken modulo 32,
and a Uint8Array write stores its value modulo 256 and silently ignores an
out-of-range index.  An out-of-range Uint8Array READ yields undefined in
JavaScript; it is modelled as 0 here, and no theorem below depends on the
value of an out-of-range read (every concrete evaluation stays in range). -/

set_option maxRecDepth 2000

namespace Tsnesemu

/-- JS ToInt32: reduce an integer to 32-bit two-complement range. -/
def toInt32 (n : Int) : Int :=
  let m := n % 4294967296
  if m < 2147483648 then m else m - 4294967296

/-- JS bitwise AND on integers (both operands coerced to Int32). -/
def jsAnd (a b : Int) : Int :=
  toInt32 (Int.ofNat (Nat.land (a % 4294967296).toNat (b % 4294967296).toNat))

/-- JS bitwise OR on integers (both operands coerced to Int32). -/
def jsOr (a b : Int) : Int :=
  toInt32 (Int.ofNat (Nat.lor (a % 4294967296).toNat (b % 4294967296).toNat))

/-- JS bitwise XOR on integers (both operands coerced to Int32). -/
def jsXor (a b : Int) : Int :=
  toInt32 (Int.ofNat (Nat.xor (a % 4294967296).toNat (b % 4294967296).toNat))

/-- JS left shift: the left operand is coerced to Int32, the shift count is
taken modulo 32, and the result is reduced to Int32. -/
def jsShl (a b : Int) : Int :=
  toInt32 (toInt32 a * 2 ^ ((b % 4294967296).toNat % 32))

/-- JS signed right shift: arithmetic shift of the Int32 value, which is
floor division by a power of two. -/
def jsShr (a b : Int) : Int :=
  Int.fdiv (toInt32 a) (2 ^ ((b % 4294967296).toNat % 32))

/-- JS expression x || 0 as applied to the handler return values, which are
always integers: the identity (it differs only on NaN or undefined). -/
def jsOrZero (x : Int) : Int := if x = 0 then 0 else x

/-- The CPU register file, flags, memory and instruction stream, mirroring
the fields of class CPU.  Registers hold unconstrained JS integers, since
the source assigns out-of-range values (A is initialized to 0x01ff, push
stores 0x01xx into SP, branch can drive PC outside 16 bits). -/
structure CPU where
  A : Int
  X : Int
  Y : Int
  SP : Int
  PC : Int
  N : Int
  V : Int
  B5 : Int
  B4 : Int
  D : Int
  I : Int
  Z : Int
  C : Int
  mem : Nat → Nat
  ops : Nat → Nat

/-- Read mem[i] from the 64KB Uint8Array: in range it yields the stored
byte; out of range JS yields undefined, modelled as 0. -/
def memRead (s : CPU) (i : Int) : Int :=
  if 0 ≤ i ∧ i < 65536 then Int.ofNat (s.mem i.toNat) else 0

/-- Write mem[i] = v: a Uint8Array stores the value modulo 256 and ignores
an out-of-range index (for such an index the updated function returns the
old byte at every cell). -/
def memWrite (s : CPU) (i v : Int) : CPU :=
  { s with
    mem := fun k =>
      if 0 ≤ i ∧ i < 65536 ∧ k = i.toNat then (v % 256).toNat else s.mem k }

/-- Method loadOpCode(pc): return ops[pc].  The claims only exercise
in-range indices; a negative index would yield undefined, modelled as 0. -/
def loadOpCode (s : CPU) (pc : Int) : Int :=
  if 0 ≤ pc then Int.ofNat (s.ops pc.toNat) else 0

/-- Numeric value of enum member AddrMode.RELATIVE. -/
def AddrMode.RELATIVE : Int := 0

/-- Numeric value of enum member AddrMode.ACCUMULATOR. -/
def AddrMode.ACCUMULATOR : Int := 1

/-- Numeric value of enum member AddrMode.IMPLIED. -/
def AddrMode.IMPLIED : Int := 2

/-- Numeric value of enum member AddrMode.IMMEDIATE. -/
def AddrMode.IMMEDIATE : Int := 3

/-- Numeric value of enum member AddrMode.INDIRECT. -/
def AddrMode.INDIRECT : Int := 4

/-- Numeric value of enum member AddrMode.X_INDIRECT. -/
def AddrMode.X_INDIRECT : Int := 5

/-- Numeric value of enum member AddrMode.INDIRECT_Y. -/
def AddrMode.INDIRECT_Y : Int := 6

/-- Numeric value of enum member AddrMode.ZEROPAGE. -/
def AddrMode.ZEROPAGE : Int := 7

/-- Numeric value of enum member AddrMode.ZEROPAGE_X. -/
def AddrMode.ZEROPAGE_X : Int := 8

/-- Numeric value of enum member AddrMode.ZEROPAGE_Y. -/
def AddrMode.ZEROPAGE_Y : Int := 9

/-- Numeric value of enum member AddrMode.ABSOLUTE. -/
def AddrMode.ABSOLUTE : Int := 10

/-- Numeric value of enum member AddrMode.ABSOLUTE_X. -/
def AddrMode.ABSOLUTE_X : Int := 11

/-- Numeric value of enum member AddrMode.ABSOLUTE_Y. -/
def AddrMode.ABSOLUTE_Y : Int := 12

/-- The mnemonics implemented in the source (one per handler method). -/
inductive Mnemonic where
  | ADC
  | AND
  | ASL
  | BCC
  | BCS
  | BEQ
  | BIT
  | BMI
  | BNE
  | BPL
  | BRK
  | BVC
  | BVS
  | CLC
  | CLD
  | CLI
  | CLV
  | CMP
  | CPX
  | CPY
  deriving DecidableEq

/-- Type OpCodeInfo: one opcode-table entry, with the field order and the
field meanings of the source record (opc, bytes, cycles, addr, op). -/
structure OpCodeInfo where
  opc : Int
  bytes : Int
  cycles : Int
  addr : Int
  op : Mnemonic

/-- Method addOpCode(op, opc, addr, bytes, cycles): insert a table entry.
The parameter order is the one DECLARED in the source; every call site in
initOpCodeMap passes (op, opc, byteCount, cycleCount, addrMode), so the
stored addr field actually receives the byte count, bytes receives the
cycle count, and cycles receives the numeric AddrMode value. -/
def addOpCode (m : Int → Option OpCodeInfo) (op : Mnemonic)
    (opc addr bytes cycles : Int) : Int → Option OpCodeInfo :=
  fun k => if k = opc then some ⟨opc, bytes, cycles, addr, op⟩ else m k

/-- Method initOpCodeMap, with every addOpCode call in source order and
with the argument lists exactly as written at the call sites.  The map is
built once by the constructor and never mutated afterwards, so it is a
single global table. -/
def initOpCodeMap : Int → Option OpCodeInfo :=
  let m : Int → Option OpCodeInfo := fun _ => none
  let m := addOpCode m .ADC 0x69 2 2 AddrMode.IMMEDIATE
  let m := addOpCode m .ADC 0x65 2 3 AddrMode.ZEROPAGE
  let m := addOpCode m .ADC 0x75 2 4 AddrMode.ZEROPAGE_X
  let m := addOpCode m .ADC 0x6d 3 4 AddrMode.ABSOLUTE
  let m := addOpCode m .ADC 0x7d 3 4 AddrMode.ABSOLUTE_X
  let m := addOpCode m .ADC 0x79 3 4 AddrMode.ABSOLUTE_Y
  let m := addOpCode m .ADC 0x61 2 6 AddrMode.X_INDIRECT
  let m := addOpCode m .ADC 0x71 2 5 AddrMode.INDIRECT_Y
  let m := addOpCode m .AND 0x29 2 2 AddrMode.IMMEDIATE
  let m := addOpCode m .AND 0x25 2 3 AddrMode.ZEROPAGE
  let m := addOpCode m .AND 0x35 2 4 AddrMode.ZEROPAGE_X
  let m := addOpCode m .AND 0x2d 3 4 AddrMode.ABSOLUTE
  let m := addOpCode m .AND 0x3d 3 4 AddrMode.ABSOLUTE_X
  let m := addOpCode m .AND 0x39 3 4 AddrMode.ABSOLUTE_Y
  let m := addOpCode m .AND 0x21 2 6 AddrMode.X_INDIRECT
  let m := addOpCode m .AND 0x31 2 5 AddrMode.INDIRECT_Y
  let m := addOpCode m .ASL 0x0a 1 2 AddrMode.ACCUMULATOR
  let m := addOpCode m .ASL 0x06 2 5 AddrMode.ZEROPAGE
  let m := addOpCode m .ASL 0x16 2 6 AddrMode.ZEROPAGE_X
  let m := addOpCode m .ASL 0x0e 3 6 AddrMode.ABSOLUTE
  let m := addOpCode m .ASL 0x1e 3 7 AddrMode.ABSOLUTE_X
  let m := addOpCode m .BCC 0x90 2 2 AddrMode.RELATIVE
  let m := addOpCode m .BCS 0xb0 2 2 AddrMode.RELATIVE
  let m := addOpCode m .BEQ 0xf0 2 2 AddrMode.RELATIVE
  let m := addOpCode m .BIT 0x24 2 3 AddrMode.ZEROPAGE
  let m := addOpCode m .BIT 0x2c 3 4 AddrMode.ABSOLUTE
  let m := addOpCode m .BMI 0x30 2 2 AddrMode.RELATIVE
  let m := addOpCode m .BNE 0xd0 2 2 AddrMode.RELATIVE
  let m := addOpCode m .BPL 0x10 2 2 AddrMode.RELATIVE
  let m := addOpCode m .BRK 0x00 1 7 AddrMode.IMPLIED
  let m := addOpCode m .BVC 0x50 2 2 AddrMode.RELATIVE
  let m := addOpCode m .BVS 0x70 2 2 AddrMode.RELATIVE
  let m := addOpCode m .CLC 0x18 1 2 AddrMode.IMPLIED
  let m := addOpCode m .CLD 0xd8 1 2 AddrMode.IMPLIED
  let m := addOpCode m .CLI 0x58 1 2 AddrMode.IMPLIED
  let m := addOpCode m .CLV 0xb8 1 2 AddrMode.IMPLIED
  let m := addOpCode m .CMP 0xc9 2 2 AddrMode.IMMEDIATE
  let m := addOpCode m .CMP 0xc5 2 3 AddrMode.ZEROPAGE
  let m := addOpCode m .CMP 0xd5 2 4 AddrMode.ZEROPAGE_X
  let m := addOpCode m .CMP 0xcd 3 4 AddrMode.ABSOLUTE
  let m := addOpCode m .CMP 0xdd 3 4 AddrMode.ABSOLUTE_X
  let m := addOpCode m .CMP 0xd9 3 4 AddrMode.ABSOLUTE_Y
  let m := addOpCode m .CMP 0xc1 2 6 AddrMode.X_INDIRECT
  let m := addOpCode m .CMP 0xd1 2 5 AddrMode.INDIRECT_Y
  let m := addOpCode m .CPX 0xe0 2 2 AddrMode.IMMEDIATE
  let m := addOpCode m .CPX 0xe4 2 3 AddrMode.ZEROPAGE
  let m := addOpCode m .CPX 0xec 3 4 AddrMode.ABSOLUTE
  let m := addOpCode m .CPY 0xc0 2 2 AddrMode.IMMEDIATE
  let m := addOpCode m .CPY 0xc4 2 3 AddrMode.ZEROPAGE
  let m := addOpCode m .CPY 0xcc 3 4 AddrMode.ABSOLUTE
  m

/-- Method address(addrMode, arg): resolve an addressing mode to the pair
(value, cycleAdd).  The switch is translated case by case; the source case
for ABSOLUTE_X has no break statement and falls through into the
ABSOLUTE_Y body, which overwrites the value with mem[arg + Y] and can also
set the extra cycle from the Y page crossing.  RELATIVE, ACCUMULATOR and
IMPLIED have no case in the switch, so they leave the initial values
value = 0, cycleAdd = 0. -/
def address (s : CPU) (addrMode : Int) (arg : Int) : Int × Int :=
  if addrMode = AddrMode.ABSOLUTE then
    (memRead s arg, 0)
  else if addrMode = AddrMode.ABSOLUTE_X then
    let cycleAdd : Int := if jsAnd arg 0xff00 ≠ jsAnd (arg + s.X) 0xff00 then 1 else 0
    let cycleAdd : Int := if jsAnd arg 0xff00 ≠ jsAnd (arg + s.Y) 0xff00 then 1 else cycleAdd
    (memRead s (arg + s.Y), cycleAdd)
  else if addrMode = AddrMode.ABSOLUTE_Y then
    let cycleAdd : Int := if jsAnd arg 0xff00 ≠ jsAnd (arg + s.Y) 0xff00 then 1 else 0
    (memRead s (arg + s.Y), cycleAdd)
  else if addrMode = AddrMode.IMMEDIATE then
    (arg, 0)
  else if addrMode = AddrMode.INDIRECT then
    let ll := memRead s arg
    let hh := memRead s (jsAnd (arg + 1) 0xff)
    (memRead s (jsShl hh (8 + ll)), 0)
  else if addrMode = AddrMode.X_INDIRECT then
    let arg := jsAnd arg 0xff
    let ll := memRead s (jsAnd (arg + s.X) 0xff)
    let hh := memRead s (jsAnd (arg + s.X + 1) 0xff)
    (memRead s (jsShl hh (8 + ll)), 0)
  else if addrMode = AddrMode.INDIRECT_Y then
    let arg := jsAnd arg 0xff
    let ll := memRead s arg
    let hh := memRead s (jsAnd (arg + 1) 0xff)
    let addr := jsShl hh (8 + ll)
    let cycleAdd : Int := if jsAnd addr 0xff00 ≠ jsAnd (addr + s.Y) 0xff00 then 1 else 0
    (memRead s (addr + s.Y), cycleAdd)
  else if addrMode = AddrMode.ZEROPAGE then
    (memRead s (jsAnd arg 0xff), 0)
  else if addrMode = AddrMode.ZEROPAGE_X then
    (memRead s (jsAnd (arg + s.X) 0xff), 0)
  else if addrMode = AddrMode.ZEROPAGE_Y then
    (memRead s (jsAnd (arg + s.Y) 0xff), 0)
  else
    (0, 0)

/-- Handler ADC (Add Memory to Accumulator with Carry).  Note the overflow
line reads this.A before the accumulator is reassigned, and computes
((result XOR oper) AND (A XOR oper) AND 0x80) > 0. -/
def ADC (s : CPU) (oper : Int) : CPU × Int :=
  let result := s.A + oper + s.C
  let c : Int := if result > 0xff then 1 else 0
  let result := jsAnd result 0xff
  let v : Int := if jsAnd (jsAnd (jsXor result oper) (jsXor s.A oper)) 0x80 > 0 then 1 else 0
  let n : Int := if jsAnd result 0x80 > 0 then 1 else 0
  let z : Int := if result = 0 then 1 else 0
  ({ s with C := c, V := v, N := n, Z := z, A := result }, 0)

/-- Handler AND (AND Memory with Accumulator). -/
def AND (s : CPU) (oper : Int) : CPU × Int :=
  let result := jsAnd s.A oper
  let n : Int := if jsAnd result 0x80 > 0 then 1 else 0
  let z : Int := if result = 0 then 1 else 0
  ({ s with N := n, Z := z, A := result }, 0)

/-- Handler ASL (Shift Left One Bit); always shifts the accumulator. -/
def ASL (s : CPU) (oper : Int) : CPU × Int :=
  let result := jsShl s.A 1
  let c : Int := if result > 0xff then 1 else 0
  let result := jsAnd result 0xff
  let n : Int := if jsAnd result 0x80 > 0 then 1 else 0
  let z : Int := if result = 0 then 1 else 0
  ({ s with C := c, N := n, Z := z, A := result }, 0)

/-- Method branch(oper): common branch helper.  The ternary treats an
operand above 0x7f as a positive displacement and any other operand as
displacement minus 256; the cycle count compares the pages of the result
and of the OLD program counter. -/
def branch (s : CPU) (oper : Int) : CPU × Int :=
  let result := if oper > 0x7f then s.PC + oper else s.PC - 256 + oper
  let cycles : Int := if jsAnd result 0xff00 = jsAnd s.PC 0xff00 then 1 else 2
  ({ s with PC := result }, cycles)

/-- Handler BCC: branch when C === 0. -/
def BCC (s : CPU) (oper : Int) : CPU × Int :=
  if s.C = 0 then branch s oper else (s, 0)

/-- Handler BCS: branch when C !== 0. -/
def BCS (s : CPU) (oper : Int) : CPU × Int :=
  if s.C ≠ 0 then branch s oper else (s, 0)

/-- Handler BEQ: branch when Z !== 0. -/
def BEQ (s : CPU) (oper : Int) : CPU × Int :=
  if s.Z ≠ 0 then branch s oper else (s, 0)

/-- Handler BIT (Test Bits in Memory with Accumulator), as coded with the
comparisons (result AND 0x80) === 1 and (result AND 0x40) === 1. -/
def BIT (s : CPU) (oper : Int) : CPU × Int :=
  let result := jsAnd s.A oper
  let z : Int := if result = 0 then 1 else 0
  let n : Int := if jsAnd result 0x80 = 1 then 1 else 0
  let v : Int := if jsAnd result 0x40 = 1 then 1 else 0
  ({ s with Z := z, N := n, V := v }, 0)

/-- Handler BMI: branch when N !== 0. -/
def BMI (s : CPU) (oper : Int) : CPU × Int :=
  if s.N ≠ 0 then branch s oper else (s, 0)

/-- Handler BNE, as coded: branch when Z !== 0 (the same test as BEQ,
although the doc comment says Branch on Result not Zero). -/
def BNE (s : CPU) (oper : Int) : CPU × Int :=
  if s.Z ≠ 0 then branch s oper else (s, 0)

/-- Handler BPL: branch when N === 0. -/
def BPL (s : CPU) (oper : Int) : CPU × Int :=
  if s.N = 0 then branch s oper else (s, 0)

/-- Method push(value): write mem[SP] = value, decrement SP, then set
SP = (SP AND 0xff) OR 0x0100. -/
def push (s : CPU) (value : Int) : CPU :=
  let s1 := memWrite s s.SP value
  let sp := s1.SP - 1
  { s1 with SP := jsOr (jsAnd sp 0xff) 0x0100 }

/-- Method packSR(): pack the status byte as
C | Z<<1 | I<<2 | D<<3 | B4<<4 | B5<<5 | V<<6 | N<<7. -/
def packSR (s : CPU) : Int :=
  jsOr (jsOr (jsOr (jsOr (jsOr (jsOr (jsOr s.C (jsShl s.Z 1)) (jsShl s.I 2))
    (jsShl s.D 3)) (jsShl s.B4 4)) (jsShl s.B5 5)) (jsShl s.V 6)) (jsShl s.N 7)

/-- Handler BRK (Force Break): push(PC + 2), push(packSR()), set I = 1. -/
def BRK (s : CPU) (oper : Int) : CPU × Int :=
  let s1 := push s (s.PC + 2)
  let s2 := push s1 (packSR s1)
  ({ s2 with I := 1 }, 0)

/-- Handler BVC: branch when V === 0. -/
def BVC (s : CPU) (oper : Int) : CPU × Int :=
  if s.V = 0 then branch s oper else (s, 0)

/-- Handler BVS: branch when V === 1. -/
def BVS (s : CPU) (oper : Int) : CPU × Int :=
  if s.V = 1 then branch s oper else (s, 0)

/-- Handler CLC: clear the carry flag. -/
def CLC (s : CPU) (oper : Int) : CPU × Int := ({ s with C := 0 }, 0)

/-- Handler CLD: clear the decimal flag. -/
def CLD (s : CPU) (oper : Int) : CPU × Int := ({ s with D := 0 }, 0)

/-- Handler CLI: clear the interrupt-disable flag. -/
def CLI (s : CPU) (oper : Int) : CPU × Int := ({ s with I := 0 }, 0)

/-- Handler CLV: clear the overflow flag. -/
def CLV (s : CPU) (oper : Int) : CPU × Int := ({ s with V := 0 }, 0)

/-- Handler CMP (Compare Memory with Accumulator). -/
def CMP (s : CPU) (oper : Int) : CPU × Int :=
  let result := s.A - oper
  let c : Int := if result ≥ 0 then 1 else 0
  let n : Int := if jsAnd (jsShr result 7) 1 = 1 then 1 else 0
  let z : Int := if jsAnd result 0xff = 0 then 1 else 0
  ({ s with C := c, N := n, Z := z }, 0)

/-- Handler CPX (Compare Memory and Index X). -/
def CPX (s : CPU) (oper : Int) : CPU × Int :=
  let result := s.X - oper
  let c : Int := if result ≥ 0 then 1 else 0
  let n : Int := if jsAnd (jsShr result 7) 1 = 1 then 1 else 0
  let z : Int := if jsAnd result 0xff = 0 then 1 else 0
  ({ s with C := c, N := n, Z := z }, 0)

/-- Handler CPY (Compare Memory and Index Y). -/
def CPY (s : CPU) (oper : Int) : CPU × Int :=
  let result := s.Y - oper
  let c : Int := if result ≥ 0 then 1 else 0
  let n : Int := if jsAnd (jsShr result 7) 1 = 1 then 1 else 0
  let z : Int := if jsAnd result 0xff = 0 then 1 else 0
  ({ s with C := c, N := n, Z := z }, 0)

/-- Dispatch from a table entry to the corresponding handler method. -/
def execOp : Mnemonic → CPU → Int → CPU × Int
  | .ADC => ADC
  | .AND => AND
  | .ASL => ASL
  | .BCC => BCC
  | .BCS => BCS
  | .BEQ => BEQ
  | .BIT => BIT
  | .BMI => BMI
  | .BNE => BNE
  | .BPL => BPL
  | .BRK => BRK
  | .BVC => BVC
  | .BVS => BVS
  | .CLC => CLC
  | .CLD => CLD
  | .CLI => CLI
  | .CLV => CLV
  | .CMP => CMP
  | .CPX => CPX
  | .CPY => CPY

/-- Method runop(): run one instruction.  Looking up an opcode byte with no
table entry destructures undefined in the source and throws a TypeError
before any mutation, modelled as the result none (no successor state is
produced).  Otherwise: fetch the argument (for byte count 3 the source
composes it as ops[PC+2] << (8 + ops[PC+1])), resolve the addressing mode,
advance PC by the byte count, run the handler, and return the new state
with cycles + cycleAdd1 + (handlerReturn || 0). -/
def runop (s : CPU) : Option (CPU × Int) :=
  match initOpCodeMap (loadOpCode s s.PC) with
  | none => none
  | some info =>
    let arg : Int :=
      if info.bytes = 2 then loadOpCode s (s.PC + 1)
      else if info.bytes = 3 then
        jsShl (loadOpCode s (s.PC + 2)) (8 + loadOpCode s (s.PC + 1))
      else 0
    let oc := address s info.addr arg
    let s1 := { s with PC := s.PC + info.bytes }
    let r := execOp info.op s1 oc.1
    some (r.1, info.cycles + oc.2 + jsOrZero r.2)

/-- The constructor: register initial values as declared in the class
(accumulator starts at 0x01ff), a zero-filled 64KB Uint8Array for mem, and
the caller-supplied ops array. -/
def CPU.new (ops : Nat → Nat) : CPU :=
  { A := 0x01ff, X := 0, Y := 0, SP := 0, PC := 0,
    N := 0, V := 0, B5 := 0, B4 := 0, D := 0, I := 0, Z := 0, C := 0,
    mem := fun _ => 0, ops := ops }

/-! Spec-side definitions, used only to compare the code against the
wording of the specification. -/

/-- Spec-side: interpret a byte as a signed 8-bit value. -/
def toSigned8 (n : Int) : Int := if n < 128 then n else n - 256

/-- Spec-side: the textbook signed-overflow truth table for the 8-bit
addition a + b + c (overflow exactly when the signed sum leaves
[-128, 127]). -/
def specAdcV (a b c : Int) : Int :=
  let sum := toSigned8 a + toSigned8 b + c
  if sum < -128 ∨ 127 < sum then 1 else 0

/-- Spec-side: the register-file invariant of the data-model section:
A, X, Y, SP in [0, 255], PC in [0, 65535], every flag exactly 0 or 1. -/
def specRegFileInvariant (s : CPU) : Prop :=
  0 ≤ s.A ∧ s.A ≤ 255 ∧ 0 ≤ s.X ∧ s.X ≤ 255 ∧ 0 ≤ s.Y ∧ s.Y ≤ 255 ∧
  0 ≤ s.SP ∧ s.SP ≤ 255 ∧ 0 ≤ s.PC ∧ s.PC ≤ 65535 ∧
  (s.N = 0 ∨ s.N = 1) ∧ (s.V = 0 ∨ s.V = 1) ∧ (s.B5 = 0 ∨ s.B5 = 1) ∧
  (s.B4 = 0 ∨ s.B4 = 1) ∧ (s.D = 0 ∨ s.D = 1) ∧ (s.I = 0 ∨ s.I = 1) ∧
  (s.Z = 0 ∨ s.Z = 1) ∧ (s.C = 0 ∨ s.C = 1)

/-- Spec-side: intended indirect-addressing operand: effective address
composed as (high byte shifted left 8) OR low byte, where the high pointer
byte is fetched from the start of the SAME page when the pointer low byte
wraps (address with low byte of arg + 1 and the high byte of arg). -/
def specIndirectOperand (s : CPU) (arg : Int) : Int :=
  let ll := memRead s arg
  let hh := memRead s (jsOr (jsAnd arg 0xff00) (jsAnd (arg + 1) 0xff))
  memRead s (jsOr (jsShl hh 8) ll)

/-! Concrete states used by the claim theorems. -/

/-- A CPU state with every register, flag and memory cell zero. -/
def zeroCPU : CPU :=
  { A := 0, X := 0, Y := 0, SP := 0, PC := 0, N := 0, V := 0, B5 := 0, B4 := 0,
    D := 0, I := 0, Z := 0, C := 0, mem := fun _ => 0, ops := fun _ => 0 }

/-- Finite-support byte array: tableFun assignments i, defaulting to 0. -/
def tableFun : List (Nat × Nat) → Nat → Nat
  | [], _ => 0
  | p :: l, i => if p.1 = i then p.2 else tableFun l i

/-- The C1 scenario: instruction stream 0x69 0x05 at PC = 0, A = 0x10,
carry clear. -/
def st1 : CPU := { zeroCPU with A := 0x10, ops := tableFun [(0, 0x69), (1, 0x05)] }

/-- The C2 failing input: accumulator 0x80, carry clear. -/
def st2 : CPU := { zeroCPU with A := 0x80 }

/-- The C3 failing input: PC already advanced to 0x8002, Z = 0, C = 0. -/
def st3 : CPU := { zeroCPU with PC := 0x8002 }

/-- The C6 failing input: PC = 0x1000, SP = 0x10, all flags clear, and the
interrupt vector 0x1234 stored little-endian at 0xFFFE/0xFFFF. -/
def st6 : CPU :=
  { zeroCPU with
    PC := 0x1000, SP := 0x10,
    mem := tableFun [(0xFFFE, 0x34), (0xFFFF, 0x12)] }

/-- The C7 failing input: a pointer 0x0101 stored at 0x0000/0x0001, and
marker bytes at the addresses the code and the claim each resolve to, for
both the arg = 0x0000 and the arg = 0x02FF (page-wrap) probes. -/
def st7 : CPU :=
  { zeroCPU with
    mem := tableFun [(0x0, 1), (0x1, 1), (0x200, 0xAA), (0x101, 0xBB),
      (0x100, 0x11), (0xAA00, 0x22)] }

/-- The C8 failing input: X = 0, Y = 1, marker bytes at arg + X and
arg + Y for both probes. -/
def st8 : CPU :=
  { zeroCPU with
    Y := 1,
    mem := tableFun [(0x10, 5), (0x11, 7), (0xFF, 3), (0x100, 4)] }

/-- The C9 witness state: every instruction byte is 0x02, an opcode with
no table entry. -/
def illegalState : CPU := { zeroCPU with ops := fun _ => 0x02 }

/-! Helper lemmas about the frame of a step (used by the C10 theorem). -/

/-- A memory write never touches the ops array. -/
theorem memWrite_ops (s : CPU) (i v : Int) : (memWrite s i v).ops = s.ops := by
  unfold memWrite; rfl

/-- A stack push never touches the ops array. -/
theorem push_ops (s : CPU) (v : Int) : (push s v).ops = s.ops := by
  unfold push memWrite; rfl

/-- Projection of the ops field from an explicit constructor application. -/
theorem CPU_mk_ops (a x y sp pc n v b5 b4 d i z c : Int) (mem ops : Nat → Nat) :
    (CPU.mk a x y sp pc n v b5 b4 d i z c mem ops).ops = ops := rfl

/-- No handler touches the ops array. -/
theorem execOp_ops (m : Mnemonic) (s : CPU) (oper : Int) :
    (execOp m s oper).1.ops = s.ops := by
  cases m
  case ADC => exact CPU_mk_ops _ _ _ _ _ _ _ _ _ _ _ _ _ _ _
  case AND => exact CPU_mk_ops _ _ _ _ _ _ _ _ _ _ _ _ _ _ _
  case ASL => exact CPU_mk_ops _ _ _ _ _ _ _ _ _ _ _ _ _ _ _
  case BCC => show (if s.C = 0 then branch s oper else (s, 0)).1.ops = s.ops; split <;> rfl
  case BCS => show (if s.C ≠ 0 then branch s oper else (s, 0)).1.ops = s.ops; split <;> rfl
  case BEQ => show (if s.Z ≠ 0 then branch s oper else (s, 0)).1.ops = s.ops; split <;> rfl
  case BIT => exact CPU_mk_ops _ _ _ _ _ _ _ _ _ _ _ _ _ _ _
  case BMI => show (if s.N ≠ 0 then branch s oper else (s, 0)).1.ops = s.ops; split <;> rfl
  case BNE => show (if s.Z ≠ 0 then branch s oper else (s, 0)).1.ops = s.ops; split <;> rfl
  case BPL => show (if s.N = 0 then branch s oper else (s, 0)).1.ops = s.ops; split <;> rfl
  case BRK =>
    show ({ push (push s (s.PC + 2)) (packSR (push s (s.PC + 2))) with I := 1 } : CPU).ops
      = s.ops
    unfold push memWrite
    rfl
  case BVC => show (if s.V = 0 then branch s oper else (s, 0)).1.ops = s.ops; split <;> rfl
  case BVS => show (if s.V = 1 then branch s oper else (s, 0)).1.ops = s.ops; split <;> rfl
  case CLC => rfl
  case CLD => rfl
  case CLI => rfl
  case CLV => rfl
  case CMP => exact CPU_mk_ops _ _ _ _ _ _ _ _ _ _ _ _ _ _ _
  case CPX => exact CPU_mk_ops _ _ _ _ _ _ _ _ _ _ _ _ _ _ _
  case CPY => exact CPU_mk_ops _ _ _ _ _ _ _ _ _ _ _ _ _ _ _

/-! The claim theorems. -/

/-- C1: executing one step on instruction stream 0x69 0x05 with A = 0x10
and carry clear.  The code yields A = 0x10 (not 0x15) and 3 cycles (not
2): the swapped addOpCode arguments make the 0x69 entry resolve its
operand under addressing mode 2 (IMPLIED, hence operand 0) and store base
cycle count 3 (the numeric value of AddrMode.IMMEDIATE).  C, Z and N do
come out 0 as the claim states. -/
theorem adc_immediate_scenario :
    ((runop st1).map fun r => (r.1.A, r.1.C, r.1.Z, r.1.N, r.2)) =
      some (0x10, 0, 0, 0, 3) := by decide

/-- C2: the ADC handler at a = 0x80, b = 0x80, c = 0 sets carry and stores
the masked result as the claim states, but leaves the overflow flag 0
where the textbook truth table requires 1: the code computes V from
(result XOR oper) AND (oldA XOR oper), not the formula of its cited
reference. -/
theorem adc_overflow_flag_mismatch :
    (ADC st2 0x80).1.C = 1 ∧ (ADC st2 0x80).1.A = 0 ∧
    (ADC st2 0x80).1.V = 0 ∧ specAdcV 0x80 0x80 0 = 1 := by decide

/-- C3: with Z = 0 the BNE handler does NOT branch (it tests Z !== 0, the
same condition as BEQ), and a taken BCC with offset 0x02 from PC = 0x8002
lands at 0x7F04 instead of the claimed 0x8004: the branch helper treats
offsets at most 0x7f as negative (PC - 256 + offset) and larger offsets as
positive, the reverse of the claimed signed interpretation. -/
theorem branch_semantics_mismatch :
    (BNE st3 0x02).1.PC = 0x8002 ∧ (BNE st3 0x02).2 = 0 ∧
    (BCC st3 0x02).1.PC = 0x7F04 ∧ (BCC st3 0x02).2 = 2 := by decide

/-- C4: pushing 0x42 with SP = 0 writes to memory address 0x0000, not to
the claimed 0x0100 + SP = 0x0100, and leaves SP = 0x01FF (the code ORs
0x0100 into the decremented stack pointer), not the claimed 8-bit 0xFF. -/
theorem push_mismatch :
    (push zeroCPU 0x42).mem 0 = 0x42 ∧ (push zeroCPU 0x42).mem 0x100 = 0 ∧
    (push zeroCPU 0x42).SP = 0x1FF := by decide

/-- C5: the register-file invariant already fails on a freshly constructed
CPU: the accumulator is initialized to 0x01ff = 511, outside [0, 255]. -/
theorem init_register_invariant_broken :
    (CPU.new (fun _ => 0)).A = 0x1ff ∧
      ¬ specRegFileInvariant (CPU.new (fun _ => 0)) := by
  refine ⟨rfl, fun h => absurd h.2.1 ?_⟩
  decide

/-- C6: the BRK handler at PC = 0x1000, SP = 0x10, all flags clear, with
vector word 0x1234 at 0xFFFE/0xFFFF: it performs one single-byte push of
(PC + 2) mod 256 = 0x02 at raw address SP = 0x10 (no high byte is pushed;
0x0110 stays 0), pushes a status byte 0x00 with bits 4 and 5 CLEAR at the
next raw stack address 0x10F, sets I = 1, and leaves PC = 0x1000: the
vector at 0xFFFE/0xFFFF is never read. -/
theorem brk_mismatch :
    (BRK st6 0).1.mem 0x10 = 0x02 ∧ (BRK st6 0).1.mem 0x10F = 0x00 ∧
    (BRK st6 0).1.mem 0x110 = 0 ∧ (BRK st6 0).1.I = 1 ∧
    (BRK st6 0).1.PC = 0x1000 ∧ st6.mem 0xFFFE = 0x34 ∧
    st6.mem 0xFFFF = 0x12 := by decide

/-- C7: indirect addressing diverges from the claimed composition.  With
the pointer bytes 0x01, 0x01 at 0x0000/0x0001 the code reads the operand
from 1 << (8 + 1) = 0x0200 (value 0xAA) where the claimed (hh << 8) | ll
reads 0x0101 (value 0xBB); and for arg = 0x02FF the code fetches the high
pointer byte from (arg + 1) AND 0xFF = 0x0000 (zero page) and yields the
byte at 0x0100, where the claimed same-page wrap fetches it from 0x0200
and yields the byte at 0xAA00. -/
theorem indirect_addressing_mismatch :
    (address st7 AddrMode.INDIRECT 0).1 = 0xAA ∧
    specIndirectOperand st7 0 = 0xBB ∧
    (address st7 AddrMode.INDIRECT 0x2FF).1 = 0x11 ∧
    specIndirectOperand st7 0x2FF = 0x22 := by decide

/-- C8: absolute-X addressing with arg = 0x10, X = 0, Y = 1 resolves to
the byte at arg + Y (7), not the claimed byte at arg + X (5), because the
ABSOLUTE_X case falls through into the ABSOLUTE_Y case; and with
arg = 0xFF it reports an extra cycle caused by the Y page crossing where
the claim (X = 0 never crosses) requires 0. -/
theorem absolute_x_fallthrough_mismatch :
    address st8 AddrMode.ABSOLUTE_X 0x10 = (7, 0) ∧
    address st8 AddrMode.ABSOLUTE_X 0xFF = (4, 1) ∧
    st8.mem 0x10 = 5 ∧ st8.X = 0 := by decide

/-- C9: an opcode byte with no table entry makes the step fail: runop
returns none (the source throws a TypeError when destructuring the missing
table entry, before PC is advanced, before any handler runs and before any
register or memory write), so no successor state is produced and the state
seen by the caller is unchanged. -/
theorem runop_illegal_opcode (s : CPU)
    (h : initOpCodeMap (loadOpCode s s.PC) = none) : runop s = none := by
  unfold runop
  rw [h]

/-- Witness for C9: opcode byte 0x02 has no table entry, and a step from a
state whose instruction stream holds 0x02 fails. -/
theorem runop_illegal_opcode_witness :
    initOpCodeMap 0x02 = none ∧ runop illegalState = none :=
  ⟨rfl, runop_illegal_opcode illegalState rfl⟩

/-- C10: one step never modifies the constructor-supplied ops array: if
runop produces a successor state its ops field is the ops field of the
input state (all stores, including stack pushes, go to the separate mem
array). -/
theorem runop_preserves_ops (s : CPU) :
    ((runop s).map fun r => r.1.ops).getD s.ops = s.ops := by
  rcases h : initOpCodeMap (loadOpCode s s.PC) with _ | info
  · simp [runop, h]
  · simp [runop, h, execOp_ops]

end Tsnesemu
